import Mathlib

/-!
Shallow embedding of the pyns parser and session core
(`src/pyns/nsparser.py`, `src/pyns/nsfile.py`), with theorems checking
the specification's claims about it.  Python 2 integers are modelled as
`Nat`/`Int`, byte strings as `List Nat` (each element a byte value),
fallible code as `Except`.
-/

/-- Modelled from the spec: error kinds of `nsexceptions.py`, which is not
under `src/` (only its importers are).  The spec's §7 table declares the
four Neuroshare kinds `BadFile`, `BadIndex`, `BadEntity`, `LibError`
(`NSReturnTypes.NS_BADFILE` etc. at the call sites in the source).  The
extra constructors stand for plain Python exceptions that are not
Neuroshare errors: attribute lookup failure, unbound local name, and
wrong-arity tuple construction. -/
inductive PyErr where
  | nsBadFile
  | nsBadIndex
  | nsBadEntity
  | nsLibError
  | attributeError
  | nameError
  | typeError
  deriving DecidableEq, Repr

/-- Modelled from the spec: the four error kinds declared in §7. -/
def declared_error_kinds : List PyErr :=
  [PyErr.nsBadFile, PyErr.nsBadIndex, PyErr.nsBadEntity, PyErr.nsLibError]

/-! ## Byte decoding (struct.unpack primitives, little endian) -/

/-- Little-endian unsigned 16-bit value from two bytes. -/
def leU16 (lo hi : Nat) : Nat := lo + 256 * hi

/-- Little-endian unsigned 32-bit value from four bytes. -/
def leU32 (b0 b1 b2 b3 : Nat) : Nat :=
  b0 + 256 * b1 + 65536 * b2 + 16777216 * b3

/-- Reinterpret an unsigned 16-bit value as a signed 16-bit value
(struct format character `h`). -/
def i16_of_u16 (v : Nat) : Int :=
  if v < 32768 then (v : Int) else (v : Int) - 65536

/-- Decode a byte list as consecutive little-endian signed 16-bit values
(struct format `{n}h`); a trailing odd byte yields nothing. -/
def unpack_i16le : List Nat → List Int
  | b0 :: b1 :: rest => i16_of_u16 (leU16 b0 b1) :: unpack_i16le rest
  | _ => []

/-! ## NevParser (`NEURALEV` event files), src/pyns/nsparser.py lines 136-303 -/

/-- `NevParser.__init__` line 165: the number of data packets is the size
of the file minus the size of all the headers, divided (Python 2 integer
division) by the size of one data packet. -/
def nev_n_data_packets (size bytes_headers bytes_data_packet : Nat) : Nat :=
  (size - bytes_headers) / bytes_data_packet

/-- `NevParser.__init__` line 172: the number of waveform samples per
packet, `(bytes_data_packet - 8)/2`. -/
def nev_sample_count (bytes_data_packet : Nat) : Nat :=
  (bytes_data_packet - 8) / 2

/-- The tuple produced by `struct.unpack("<IH2B{n}h", buf)`:
unsigned 32-bit timestamp, unsigned 16-bit packet id, two bytes, and the
signed 16-bit remainder. -/
structure NevRawTuple where
  timestamp : Nat
  packet_id : Nat
  byte1 : Nat
  byte2 : Nat
  rest : List Int
  deriving DecidableEq, Repr

/-- `struct.unpack(self.data_packet_form, buf)` with
`data_packet_form = "<IH2B{sample_count}h"`: fails (struct.error) unless
the buffer length is exactly `8 + 2*sample_count`. -/
def struct_unpack_packet (buf : List Nat) (sample_count : Nat) :
    Option NevRawTuple :=
  if buf.length = 8 + 2 * sample_count then
    match buf with
    | b0 :: b1 :: b2 :: b3 :: b4 :: b5 :: b6 :: b7 :: rest =>
        some ⟨leU32 b0 b1 b2 b3, leU16 b4 b5, b6, b7, unpack_i16le rest⟩
    | _ => none
  else none

/-- The two packet variants returned by `NevParser.get_data_packet`:
the `NEVEvent` namedtuple (digital event, `packet_id == 0`) and the
`NEVSegment` namedtuple (spike waveform, `packet_id > 0`). -/
inductive NevPacket where
  | event (timestamp packet_id reason reserved : Nat)
      (digital_input input1 input2 input3 input4 input5 : Int)
  | segment (timestamp packet_id unit_class reserved : Nat)
      (waveform : List Int)
  deriving DecidableEq, Repr

/-- Timestamp field common to both packet variants. -/
def NevPacket.timestamp : NevPacket → Nat
  | .event t _ _ _ _ _ _ _ _ _ => t
  | .segment t _ _ _ _ => t

/-- `NevParser.get_data_packet` lines 285-303, decoding part: unpack the
buffer, then dispatch on `packet_id`.  For a digital event the code takes
the first 10 unpacked values (`NEVEvent._make(packet_tup[:10])`); if the
tuple has fewer than 10 values the namedtuple constructor raises
`TypeError`.  For a spike the whole remainder becomes the waveform. -/
def nev_get_data_packet (buf : List Nat) (sample_count : Nat) :
    Except PyErr NevPacket :=
  match struct_unpack_packet buf sample_count with
  | none => .error .nsBadFile
  | some r =>
    if r.packet_id = 0 then
      match r.rest with
      | d :: i1 :: i2 :: i3 :: i4 :: i5 :: _ =>
          .ok (.event r.timestamp r.packet_id r.byte1 r.byte2 d i1 i2 i3 i4 i5)
      | _ => .error .typeError
    else
      .ok (.segment r.timestamp r.packet_id r.byte1 r.byte2 r.rest)

/-- `NevParser.get_data_packet` lines 278-284: bound check on
`packet_index` and the seek offset `bytes_headers + index*bytes_data_packet`.
Indices are `Int` because Python indices may be negative. -/
def nev_get_data_packet_seek (n_data_packets bytes_headers bytes_data_packet
    packet_index : Int) : Except PyErr Int :=
  if packet_index ≥ n_data_packets ∨ packet_index < 0 then
    .error .nsBadIndex
  else
    .ok (bytes_headers + packet_index * bytes_data_packet)

/-- `NevParser.get_extended_header` lines 223-228: bound check on
`header_index` and the seek offset `NEURALEV_SIZE + index*32`
(`NEURALEV_SIZE = 336`, extended headers are 32 bytes). -/
def nev_get_ext_header_seek (n_ext_headers header_index : Int) :
    Except PyErr Int :=
  if header_index ≥ n_ext_headers ∨ header_index < 0 then
    .error .nsBadIndex
  else
    .ok (336 + header_index * 32)

/-- `Nsx22Parser.get_extended_header` lines 522-527: bound check on
`header_index` (note the source tests `header_index > self.channel_count`,
not `>=`) and the seek offset `NEURALCD_SIZE + CC_SIZE*index`
(`NEURALCD_SIZE = 314`, `CC_SIZE = 66`). -/
def nsx22_get_ext_header_seek (channel_count header_index : Int) :
    Except PyErr Int :=
  if header_index > channel_count ∨ header_index < 0 then
    .error .nsBadIndex
  else
    .ok (314 + 66 * header_index)

/-! ## Continuous parsers (`NEURALSG` v1, `NEURALCD` v2) -/

/-- `Nsx21Parser.__init__` lines 328-329: size of the variable-length
basic header `"8s16s2I{channel_count}I"`, i.e. `32 + 4*channel_count`. -/
def nsx21_header_size (channel_count : Nat) : Nat := 32 + 4 * channel_count

/-- `Nsx21Parser.__init__` line 339: per-channel sample count
`(size - header_size) / 2 / channel_count` (integer division). -/
def nsx21_n_data_points (size channel_count : Nat) : Nat :=
  (size - nsx21_header_size channel_count) / 2 / channel_count

/-- `Nsx22Parser.__init__` line 464: per-channel sample count
`(size - bytes_headers) / channel_count / 2` (integer division). -/
def nsx22_n_data_points (size bytes_headers channel_count : Nat) : Nat :=
  (size - bytes_headers) / channel_count / 2

/-- The shared read loop of `Nsx21Parser.get_analog_data` (lines 417-428)
and `Nsx22Parser.get_analog_data` (lines 550-559): at each step read two
bytes at the cursor; if fewer than two bytes remain, stop; otherwise
decode a signed 16-bit sample and advance the cursor by `2 + skip`. -/
def read_sample_loop (file : List Nat) (pos skip : Nat) : Nat → List Int
  | 0 => []
  | n + 1 =>
    if pos + 2 ≤ file.length then
      i16_of_u16 (leU16 (file.getD pos 0) (file.getD (pos + 1) 0)) ::
        read_sample_loop file (pos + 2 + skip) skip n
    else []

/-- `Nsx21Parser.get_analog_data` lines 392-433.  `index_count = none`
models the Python `None` argument (line 403-404 replaces it by
`n_data_points - start_index`).  The first wanted byte sits at
`header_size + start_index*packet_size + 2*channel` with
`packet_size = channel_count*2`; after each sample the cursor skips
`packet_size - 2` bytes. -/
def nsx21_get_analog_data (file : List Nat) (channel_count channel
    start_index : Nat) (index_count : Option Nat) : List Int :=
  let count := match index_count with
    | none => nsx21_n_data_points file.length channel_count - start_index
    | some c => c
  let packet_size := channel_count * 2
  let offset := start_index * packet_size + 2 * channel
  read_sample_loop file (nsx21_header_size channel_count + offset)
    (packet_size - 2) count

/-- `Nsx22Parser.get_analog_data` lines 531-563.  When the caller passes
`None` the source computes `index_count = channel_count - start_index`
(line 541).  The first wanted byte sits at
`NEURALCD_SIZE + channel_count*CC_SIZE + 9 + 2*channel_count*start_index
+ 2*channel_index`; after each sample the cursor skips
`2*channel_count - 2` bytes. -/
def nsx22_get_analog_data (file : List Nat) (channel_count channel_index
    start_index : Nat) (index_count : Option Nat) : List Int :=
  let count := match index_count with
    | none => channel_count - start_index
    | some c => c
  let skip := 2 * channel_count - 2
  let offset := 9 + 2 * channel_count * start_index + 2 * channel_index
  read_sample_loop file (314 + channel_count * 66 + offset) skip count

/-! ## NSFile session core (`src/pyns/nsfile.py`) -/

/-- `NSFile._load_neuralev` lines 229-255, final step: after looping over
all data packets with loop variable `packet`, the source assigns
`file_data.time_span = float(packet.timestamp)/parser.timestamp_resolution`.
When the packet list is empty the loop body never runs, the name `packet`
is unbound, and the assignment raises `NameError`. -/
def load_neuralev_time_span (packets : List NevPacket)
    (timestamp_resolution : ℚ) : Except PyErr ℚ :=
  match packets.getLast? with
  | none => .error .nameError
  | some p => .ok ((p.timestamp : ℚ) / timestamp_resolution)

/-- Modelled from the spec: the entity type tags of `nsentity.EntityType`
(`nsentity.py` is not under `src/`; §3 lists the four variants analog,
segment, event, neural). -/
inductive EntityType where
  | analog
  | segment
  | event
  | neural
  deriving DecidableEq, BEq, Repr

/-- Modelled from the spec: the entity attributes of `nsentity.py` that
the session reordering consults (§3): the variant tag, the analog sample
frequency (only its ordering matters here, so it is kept as a `Nat`),
the electrode id and the unit class. -/
structure Entity where
  etype : EntityType
  sample_freq : Nat
  electrode_id : Nat
  unit_class : Nat
  deriving DecidableEq, Repr

/-- Insert a value into an ascending list, keeping it ascending. -/
def insert_sorted (x : Nat) : List Nat → List Nat
  | [] => [x]
  | y :: ys => if x ≤ y then x :: y :: ys else y :: insert_sorted x ys

/-- Ascending insertion sort; together with `List.dedup` this models
Python's `sorted(set(...))` (an ascending list of the distinct values). -/
def sort_nat : List Nat → List Nat
  | [] => []
  | x :: xs => insert_sorted x (sort_nat xs)

/-- `NSFile.__init__` lines 146-166, the entity-list reshaping run after
all files are ingested: move neural entities to the end; collect the
distinct analog sample frequencies in ascending order; compute the
insertion point as one past the last index holding a segment or event
entity (the source takes `[-1]` of the index list, which raises
`IndexError` — modelled as `none` — when no segment or event entity
exists); remove the analog entities and re-insert them at the insertion
point grouped by ascending sample frequency. -/
def reorder_entities (es : List Entity) : Option (List Entity) :=
  let neural := es.filter (fun e => e.etype == EntityType.neural)
  let es2 := es.filter (fun e => e.etype != EntityType.neural) ++ neural
  let analogs := es2.filter (fun e => e.etype == EntityType.analog)
  let sample_freqs := sort_nat ((analogs.map (fun e => e.sample_freq)).dedup)
  let seg_event_idxs := (es2.enum.filter
    (fun p => p.2.etype == EntityType.segment ||
      p.2.etype == EntityType.event)).map Prod.fst
  match seg_event_idxs.getLast? with
  | none => none
  | some last =>
    let insert_index := last + 1
    let base := es2.filter (fun e => e.etype != EntityType.analog)
    let grouped := (sample_freqs.map
      (fun f => analogs.filter (fun e => e.sample_freq == f))).flatten
    some (base.take insert_index ++ grouped ++ base.drop insert_index)

/-- The three file-type magics, as returned by the parsers' `file_type`
properties (`NEURALEV`, `NEURALSG`, `NEURALCD`). -/
inductive FileTag where
  | neuralev
  | neuralsg
  | neuralcd
  deriving DecidableEq, BEq, Repr

/-- `NSFile.has_file_type` lines 284-291: scan the session's file list
for a matching file-type tag. -/
def has_file_type (files : List FileTag) (t : FileTag) : Bool :=
  files.contains t

/-- `NSFile.get_file_info` lines 340-363, the aggregate `file_type`
string: `"NEURALEV"` when an event file is present, `"NEURALEV+ NEURAL"`
(with the space) when a continuous file is present too, `"NEURAL"` when
only continuous files are present, `""` otherwise. -/
def file_type_string (files : List FileTag) : String :=
  if has_file_type files FileTag.neuralev then
    if has_file_type files FileTag.neuralcd ||
        has_file_type files FileTag.neuralsg then
      "NEURALEV+ NEURAL"
    else
      "NEURALEV"
  else if has_file_type files FileTag.neuralcd ||
      has_file_type files FileTag.neuralsg then
    "NEURAL"
  else ""

/-- The attribute names of the basic-header namedtuples returned by
`get_basic_header`, copied from the `namedtuple` declarations in
`src/pyns/nsparser.py` lines 59-63 (`NEURALEV`), line 88 (`NEURALSG`) and
lines 92-94 (`NEURALCD`).  None of them declares `file_type`. -/
def header_fields : FileTag → List String
  | .neuralev =>
      ["header_type", "file_rev_major", "file_rev_minor", "file_flags",
       "bytes_headers", "bytes_data_packet", "timestamp_resolution",
       "sample_resolution", "time_origin", "application", "comment",
       "n_ext_headers"]
  | .neuralsg =>
      ["header_type", "label", "period", "channel_count", "channel_id"]
  | .neuralcd =>
      ["header_type", "maj_revision", "min_revision", "bytes_headers",
       "label", "comment", "period", "timestamp_resolution", "time_origin",
       "channel_count"]

/-- `NSFile.get_file_info` lines 364-383, control flow of the per-file
loop: each iteration fetches the file's basic header and evaluates
`header.file_type`.  Python resolves the attribute against the
namedtuple's declared fields; since no basic-header namedtuple declares
`file_type`, the lookup raises `AttributeError` on the first file. -/
def file_info_loop : List FileTag → Except PyErr Unit
  | [] => .ok ()
  | f :: rest =>
    if "file_type" ∈ header_fields f then file_info_loop rest
    else .error .attributeError

/-- The portion of the `FileInfo` namedtuple (nsfile.py lines 27-29)
needed by the claims about `get_file_info`. -/
structure FileInfoRes where
  file_type : String
  timestamp_resolution : ℚ
  deriving DecidableEq, Repr

/-- `NSFile.get_file_info` lines 336-386: compute the `file_type` string,
then run the per-file loop (which raises `AttributeError`, see
`file_info_loop`); only if the loop completes — i.e. only for an empty
file list, which the constructor rules out — is the `FileInfo` tuple
returned, with `timestamp_resolution` still holding its initial `0.0`. -/
def get_file_info (files : List FileTag) : Except PyErr FileInfoRes :=
  match file_info_loop files with
  | .error e => .error e
  | .ok _ => .ok ⟨file_type_string files, 0⟩

/-- `NSFile.get_file_info` line 381, right-hand side of the
`timestamp_resolution` assignment in the event-file branch:
`1.0 / header.sample_resolution`. -/
def ts_resolution_assignment (sample_resolution : Nat) : ℚ :=
  1 / (sample_resolution : ℚ)

/-- The calendar fields of a Python `datetime` value. -/
structure DateTimeRes where
  year : Nat
  month : Nat
  day : Nat
  hour : Nat
  minute : Nat
  second : Nat
  microsecond : Nat
  deriving DecidableEq, Repr

/-- The time fields of the `FileInfo` namedtuple consumed by
`NSFile.get_time`. -/
structure FileInfoTime where
  time_year : Nat
  time_month : Nat
  time_day : Nat
  time_hour : Nat
  time_min : Nat
  time_sec : Nat
  time_millisec : Nat
  deriving DecidableEq, Repr

/-- `NSFile.get_time` lines 305-307: the `datetime` constructor call
`datetime(info.time_year, info.time_month, info.time_day, info.time_hour,
info.time_sec, info.time_hour, info.time_millisec)` — positionally, the
minute argument receives `time_sec`, the second argument receives
`time_hour`, and the microsecond argument receives `time_millisec`. -/
def get_time_from_info (i : FileInfoTime) : DateTimeRes :=
  ⟨i.time_year, i.time_month, i.time_day, i.time_hour, i.time_sec,
    i.time_hour, i.time_millisec⟩

/-! ## Helper lemmas -/

theorem unpack_i16le_length : ∀ l : List Nat,
    (unpack_i16le l).length = l.length / 2
  | [] => rfl
  | [_] => by simp [unpack_i16le]
  | _ :: _ :: rest => by
    simp [unpack_i16le, unpack_i16le_length rest]
    omega

theorem get_file_info_ne_nil (files : List FileTag) (h : files ≠ []) :
    get_file_info files = .error .attributeError := by
  match files with
  | [] => exact absurd rfl h
  | f :: rest => cases f <;> rfl

theorem read_sample_loop_length_le (file : List Nat) (skip : Nat) :
    ∀ (n pos : Nat), (read_sample_loop file pos skip n).length ≤ n := by
  intro n
  induction n with
  | zero => intro pos; simp [read_sample_loop]
  | succ m ih =>
    intro pos
    by_cases h : pos + 2 ≤ file.length
    · simpa [read_sample_loop, h] using ih (pos + 2 + skip)
    · simp [read_sample_loop, h]

theorem read_sample_loop_length_succ (file : List Nat) (skip : Nat) :
    ∀ (m pos : Nat), (read_sample_loop file pos skip (m + 1)).length = m + 1 ↔
      pos + m * (2 + skip) + 2 ≤ file.length := by
  intro m
  induction m with
  | zero =>
    intro pos
    by_cases h : pos + 2 ≤ file.length <;> simp [read_sample_loop, h]
  | succ k ih =>
    intro pos
    have hmul : (k + 1) * (2 + skip) = k * (2 + skip) + (2 + skip) :=
      Nat.succ_mul _ _
    by_cases h : pos + 2 ≤ file.length
    · have hstep : read_sample_loop file pos skip (k + 1 + 1) =
          i16_of_u16 (leU16 (file.getD pos 0) (file.getD (pos + 1) 0)) ::
            read_sample_loop file (pos + 2 + skip) skip (k + 1) := by
        rw [read_sample_loop, if_pos h]
      rw [hstep, List.length_cons]
      have hih := ih (pos + 2 + skip)
      constructor
      · intro hlen
        have h2 := hih.mp (by omega)
        omega
      · intro hle
        have h2 := hih.mpr (by omega)
        omega
    · have hstep : read_sample_loop file pos skip (k + 1 + 1) = [] := by
        rw [read_sample_loop, if_neg h]
      rw [hstep, List.length_nil]
      constructor
      · intro hlen; omega
      · intro hle; omega

/-! ## Claims -/

/-- C1: the claim says the reshaped entity list follows the three-part
order for every combination of input files, and that construction
succeeds even when only continuous files (hence no segment or event
entities) are present.  The second part fails: with no segment or event
entity the insert-index computation takes `[-1]` of an empty list and
the constructor raises `IndexError` (`reorder_entities` returns `none`).
The first conjunct evaluates the code at that failing input; the second
shows a mixed session where the three-part order does hold. -/
theorem c1_entity_order_continuous_only_crash :
    reorder_entities [⟨.analog, 1000, 5, 0⟩] = none ∧
    reorder_entities
      [⟨.segment, 0, 1, 0⟩, ⟨.event, 0, 0, 0⟩, ⟨.neural, 0, 1, 0⟩,
       ⟨.neural, 0, 1, 1⟩, ⟨.analog, 2000, 7, 0⟩, ⟨.analog, 1000, 8, 0⟩] =
    some
      [⟨.segment, 0, 1, 0⟩, ⟨.event, 0, 0, 0⟩, ⟨.analog, 1000, 8, 0⟩,
       ⟨.analog, 2000, 7, 0⟩, ⟨.neural, 0, 1, 0⟩, ⟨.neural, 0, 1, 1⟩] :=
  ⟨rfl, rfl⟩

/-- C2: the aggregate `file_type` string computed at the top of
`get_file_info` is exactly as claimed for the three presence
combinations; but `get_file_info` itself never returns it, because the
per-file loop reads `header.file_type` — an attribute no basic-header
namedtuple declares — and raises `AttributeError` on the first file of
every (necessarily non-empty) session. -/
theorem c2_file_type_string (files : List FileTag) (hne : files ≠ []) :
    get_file_info files = .error .attributeError ∧
    (has_file_type files .neuralev = true →
      has_file_type files .neuralcd = false →
      has_file_type files .neuralsg = false →
      file_type_string files = "NEURALEV") ∧
    (has_file_type files .neuralev = true →
      (has_file_type files .neuralcd = true ∨
       has_file_type files .neuralsg = true) →
      file_type_string files = "NEURALEV+ NEURAL") ∧
    (has_file_type files .neuralev = false →
      (has_file_type files .neuralcd = true ∨
       has_file_type files .neuralsg = true) →
      file_type_string files = "NEURAL") := by
  refine ⟨get_file_info_ne_nil files hne, ?_, ?_, ?_⟩
  · intro hev hcd hsg
    simp [file_type_string, hev, hcd, hsg]
  · intro hev hor
    rcases hor with hcd | hsg
    · simp [file_type_string, hev, hcd]
    · simp [file_type_string, hev, hsg]
  · intro hev hor
    rcases hor with hcd | hsg
    · simp [file_type_string, hev, hcd]
    · simp [file_type_string, hev, hsg]

/-- Witness for C2 at a concrete event-plus-continuous session. -/
theorem c2_file_type_string_witness :
    get_file_info [FileTag.neuralev, FileTag.neuralcd] =
      .error .attributeError ∧
    file_type_string [FileTag.neuralev, FileTag.neuralcd] =
      "NEURALEV+ NEURAL" := by
  have h := c2_file_type_string [FileTag.neuralev, FileTag.neuralcd]
    (by simp)
  exact ⟨h.1, h.2.2.1 (by decide) (Or.inl (by decide))⟩

/-- C3: the event-file packet count is the floor quotient
`(size - bytes_headers) / bytes_data_packet`, hence it satisfies the
claimed sandwich inequality, and on the concrete instance
`bytes_data_packet = 104`, `size - bytes_headers = 10403` it is 100. -/
theorem c3_packet_count (size bytes_headers bytes_data_packet : Nat)
    (hh : bytes_headers ≤ size) (hb : 0 < bytes_data_packet) :
    nev_n_data_packets size bytes_headers bytes_data_packet *
        bytes_data_packet + bytes_headers ≤ size ∧
    size < (nev_n_data_packets size bytes_headers bytes_data_packet + 1) *
        bytes_data_packet + bytes_headers ∧
    nev_n_data_packets (336 + 10403) 336 104 = 100 := by
  refine ⟨?_, ?_, by decide⟩
  · calc nev_n_data_packets size bytes_headers bytes_data_packet *
          bytes_data_packet + bytes_headers
        ≤ (size - bytes_headers) + bytes_headers :=
          Nat.add_le_add_right (Nat.div_mul_le_self _ _) _
      _ = size := Nat.sub_add_cancel hh
  · have hdm := Nat.div_add_mod (size - bytes_headers) bytes_data_packet
    have hmod := Nat.mod_lt (size - bytes_headers) hb
    have h5 : size - bytes_headers <
        ((size - bytes_headers) / bytes_data_packet + 1) *
          bytes_data_packet := by
      have hx : ((size - bytes_headers) / bytes_data_packet + 1) *
            bytes_data_packet =
          bytes_data_packet * ((size - bytes_headers) / bytes_data_packet) +
            bytes_data_packet := by ring
      omega
    calc size = (size - bytes_headers) + bytes_headers :=
          (Nat.sub_add_cancel hh).symm
      _ < ((size - bytes_headers) / bytes_data_packet + 1) *
            bytes_data_packet + bytes_headers :=
          Nat.add_lt_add_right h5 _

/-- Witness for C3 at the spec's concrete instance. -/
theorem c3_packet_count_witness :
    336 ≤ 336 + 10403 ∧ 0 < 104 ∧
    nev_n_data_packets (336 + 10403) 336 104 = 100 :=
  ⟨by decide, by decide,
    (c3_packet_count (336 + 10403) 336 104 (by decide) (by decide)).2.2⟩

/-- C4 counterexample: the claim says a digital-event packet's
`digital_input` decodes as an *unsigned* 16-bit field, but
`get_data_packet` unpacks the whole remainder with the signed format
`{n}h`; on a packet whose `digital_input` bytes are `0x00 0x80` the code
yields `-32768` while the unsigned reading is `32768`. -/
theorem c4_digital_input_counterexample :
    nev_get_data_packet
      [0, 0, 0, 0, 0, 0, 7, 0, 0, 128, 1, 0, 2, 0, 3, 0, 4, 0, 5, 0] 6 =
      .ok (.event 0 0 7 0 (-32768) 1 2 3 4 5) ∧
    leU16 0 128 = 32768 ∧ ((-32768 : Int) ≠ ((leU16 0 128 : Nat) : Int)) :=
  ⟨rfl, rfl, by decide⟩

/-- C4 amended: decoding dispatches on the unsigned 16-bit packet id
exactly as claimed, except that `digital_input` decodes as a *signed*
16-bit field (the same `h` decoding as `input1..input5`): a zero packet
id yields the digital event with `reason`/`reserved` bytes and six signed
16-bit fields, and a positive packet id yields the spike segment with
`unit_class`/`reserved` bytes and a signed 16-bit waveform of exactly
`sample_count = (bytes_data_packet - 8)/2` samples. -/
theorem c4_packet_decode (b0 b1 b2 b3 b4 b5 b6 b7 r0 r1 r2 r3 r4 r5 r6 r7
    r8 r9 r10 r11 : Nat) (tail : List Nat) (n : Nat)
    (hlen : 12 + tail.length = 2 * n) :
    (leU16 b4 b5 = 0 →
      nev_get_data_packet
        (b0 :: b1 :: b2 :: b3 :: b4 :: b5 :: b6 :: b7 :: r0 :: r1 :: r2 ::
          r3 :: r4 :: r5 :: r6 :: r7 :: r8 :: r9 :: r10 :: r11 :: tail) n =
      .ok (.event (leU32 b0 b1 b2 b3) 0 b6 b7
        (i16_of_u16 (leU16 r0 r1)) (i16_of_u16 (leU16 r2 r3))
        (i16_of_u16 (leU16 r4 r5)) (i16_of_u16 (leU16 r6 r7))
        (i16_of_u16 (leU16 r8 r9)) (i16_of_u16 (leU16 r10 r11)))) ∧
    (leU16 b4 b5 ≠ 0 →
      nev_get_data_packet
        (b0 :: b1 :: b2 :: b3 :: b4 :: b5 :: b6 :: b7 :: r0 :: r1 :: r2 ::
          r3 :: r4 :: r5 :: r6 :: r7 :: r8 :: r9 :: r10 :: r11 :: tail) n =
      .ok (.segment (leU32 b0 b1 b2 b3) (leU16 b4 b5) b6 b7
        (unpack_i16le (r0 :: r1 :: r2 :: r3 :: r4 :: r5 :: r6 :: r7 :: r8 ::
          r9 :: r10 :: r11 :: tail))) ∧
      (unpack_i16le (r0 :: r1 :: r2 :: r3 :: r4 :: r5 :: r6 :: r7 :: r8 ::
        r9 :: r10 :: r11 :: tail)).length = n) := by
  have hbuf : (b0 :: b1 :: b2 :: b3 :: b4 :: b5 :: b6 :: b7 :: r0 :: r1 ::
      r2 :: r3 :: r4 :: r5 :: r6 :: r7 :: r8 :: r9 :: r10 :: r11 ::
      tail).length = 8 + 2 * n := by
    simp [List.length_cons]
    omega
  have hunp : struct_unpack_packet
      (b0 :: b1 :: b2 :: b3 :: b4 :: b5 :: b6 :: b7 :: r0 :: r1 :: r2 ::
        r3 :: r4 :: r5 :: r6 :: r7 :: r8 :: r9 :: r10 :: r11 :: tail) n =
      some ⟨leU32 b0 b1 b2 b3, leU16 b4 b5, b6, b7,
        unpack_i16le (r0 :: r1 :: r2 :: r3 :: r4 :: r5 :: r6 :: r7 :: r8 ::
          r9 :: r10 :: r11 :: tail)⟩ := by
    unfold struct_unpack_packet
    rw [if_pos hbuf]
  have hrest : unpack_i16le (r0 :: r1 :: r2 :: r3 :: r4 :: r5 :: r6 :: r7 ::
      r8 :: r9 :: r10 :: r11 :: tail) =
      i16_of_u16 (leU16 r0 r1) :: i16_of_u16 (leU16 r2 r3) ::
      i16_of_u16 (leU16 r4 r5) :: i16_of_u16 (leU16 r6 r7) ::
      i16_of_u16 (leU16 r8 r9) :: i16_of_u16 (leU16 r10 r11) ::
      unpack_i16le tail := rfl
  constructor
  · intro hid
    unfold nev_get_data_packet
    rw [hunp]
    simp only [hid, hrest]
    simp
  · intro hid
    constructor
    · unfold nev_get_data_packet
      rw [hunp]
      simp only [if_neg hid]
    · rw [unpack_i16le_length]
      simp [List.length_cons]
      omega

/-- Witness for C4 at two concrete 20-byte packets (digital event and
spike segment). -/
theorem c4_packet_decode_witness :
    nev_get_data_packet
      [1, 0, 0, 0, 0, 0, 3, 0, 10, 0, 1, 0, 2, 0, 3, 0, 4, 0, 5, 0] 6 =
      .ok (.event 1 0 3 0 10 1 2 3 4 5) ∧
    nev_get_data_packet
      [1, 0, 0, 0, 9, 0, 2, 0, 10, 0, 1, 0, 2, 0, 3, 0, 4, 0, 5, 0] 6 =
      .ok (.segment 1 9 2 0 [10, 1, 2, 3, 4, 5]) := by
  have h1 := (c4_packet_decode 1 0 0 0 0 0 3 0 10 0 1 0 2 0 3 0 4 0 5 0
    [] 6 (by decide)).1 (by decide)
  have h2 := ((c4_packet_decode 1 0 0 0 9 0 2 0 10 0 1 0 2 0 3 0 4 0 5 0
    [] 6 (by decide)).2 (by decide)).1
  constructor
  · rw [h1]; rfl
  · rw [h2]; rfl

/-- C5 counterexample: the claim says the returned buffer has length
exactly `count` iff `start + count ≤ n_data_points`.  On a v1 file whose
data region is not a whole number of rows (2 channels, 46-byte file, so
`n_data_points = 1` with a 2-byte partial trailing row), reading 2
samples of channel 0 succeeds in full even though `0 + 2 > 1`. -/
theorem c5_exact_length_counterexample :
    (nsx21_get_analog_data (List.replicate 46 0) 2 0 0 (some 2)).length = 2 ∧
    nsx21_n_data_points 46 2 = 1 ∧ ¬(0 + 2 ≤ nsx21_n_data_points 46 2) :=
  ⟨rfl, rfl, by decide⟩

/-- C5 amended: for both continuous parsers and a valid channel
(`channel < channel_count`), the buffer never exceeds the requested
count, a read hitting end-of-file returns the truncated buffer (the
reader is total: it never raises), and the length equals the requested
count exactly when the last requested sample's two bytes lie within the
file; for v1 this coincides with the claimed
`start + count ≤ n_data_points` criterion whenever the data region is a
whole number of `2*channel_count`-byte rows.  (For v2 the byte criterion
includes the 9-byte packet header, which `n_data_points` ignores, so the
claimed criterion does not hold in general.) -/
theorem c5_analog_read_length (file : List Nat) (C c s cnt : Nat)
    (hC : 0 < C) (hc : c < C) (hcnt : 0 < cnt) :
    (nsx21_get_analog_data file C c s (some cnt)).length ≤ cnt ∧
    ((nsx21_get_analog_data file C c s (some cnt)).length = cnt ↔
      nsx21_header_size C + (s + cnt - 1) * (2 * C) + 2 * c + 2 ≤
        file.length) ∧
    (2 * C ∣ file.length - nsx21_header_size C →
      ((nsx21_get_analog_data file C c s (some cnt)).length = cnt ↔
        s + cnt ≤ nsx21_n_data_points file.length C)) ∧
    (nsx22_get_analog_data file C c s (some cnt)).length ≤ cnt ∧
    ((nsx22_get_analog_data file C c s (some cnt)).length = cnt ↔
      314 + C * 66 + 9 + 2 * C * s + 2 * c + (cnt - 1) * (2 * C) + 2 ≤
        file.length) := by
  obtain ⟨m, rfl⟩ : ∃ m, cnt = m + 1 :=
    ⟨cnt - 1, (Nat.succ_pred_eq_of_pos hcnt).symm⟩
  have hskip : 2 + (C * 2 - 2) = C * 2 := by omega
  have hskip' : 2 + (2 * C - 2) = 2 * C := by omega
  refine ⟨read_sample_loop_length_le _ _ _ _, ?_, ?_, ?_, ?_⟩
  · unfold nsx21_get_analog_data
    rw [read_sample_loop_length_succ, hskip]
    have harith : nsx21_header_size C + (s * (C * 2) + 2 * c) +
        m * (C * 2) + 2 =
        nsx21_header_size C + (s + (m + 1) - 1) * (2 * C) + 2 * c + 2 := by
      have hsm : s + (m + 1) - 1 = s + m := by omega
      rw [hsm]; ring
    rw [harith]
  · intro hdvd
    obtain ⟨k, hk⟩ := hdvd
    have hiff : (nsx21_get_analog_data file C c s (some (m + 1))).length =
        m + 1 ↔
        nsx21_header_size C + (s + (m + 1) - 1) * (2 * C) + 2 * c + 2 ≤
          file.length := by
      unfold nsx21_get_analog_data
      rw [read_sample_loop_length_succ, hskip]
      have hsm : s + (m + 1) - 1 = s + m := by omega
      constructor
      · intro hle
        rw [hsm]
        have : nsx21_header_size C + (s * (C * 2) + 2 * c) + m * (C * 2) +
            2 = nsx21_header_size C + (s + m) * (2 * C) + 2 * c + 2 := by
          ring
        omega
      · intro hle
        rw [hsm] at hle
        have : nsx21_header_size C + (s * (C * 2) + 2 * c) + m * (C * 2) +
            2 = nsx21_header_size C + (s + m) * (2 * C) + 2 * c + 2 := by
          ring
        omega
    rw [hiff]
    have hN : nsx21_n_data_points file.length C = k := by
      unfold nsx21_n_data_points
      rw [Nat.div_div_eq_div_mul, hk]
      exact Nat.mul_div_cancel_left k (by omega)
    rw [hN]
    have hsm : s + (m + 1) - 1 = s + m := by omega
    rw [hsm]
    by_cases hHL : nsx21_header_size C ≤ file.length
    · have hL : file.length = nsx21_header_size C + 2 * C * k := by omega
      constructor
      · intro hle
        have h1 : (s + m) * (2 * C) < k * (2 * C) := by
          have h2 : 2 * C * k = k * (2 * C) := by ring
          omega
        have h3 : s + m < k := Nat.lt_of_mul_lt_mul_right h1
        omega
      · intro hle
        have h1 : (s + m + 1) * (2 * C) ≤ k * (2 * C) :=
          Nat.mul_le_mul_right _ (by omega)
        have h2 : (s + m + 1) * (2 * C) = (s + m) * (2 * C) + 2 * C := by
          ring
        have h3 : 2 * C * k = k * (2 * C) := by ring
        omega
    · have hzero : file.length - nsx21_header_size C = 0 := by omega
      have hk0 : k = 0 := by
        rw [hzero] at hk
        rcases Nat.mul_eq_zero.mp hk.symm with h | h
        · omega
        · exact h
      constructor
      · intro hle; omega
      · intro hle; omega
  · exact read_sample_loop_length_le _ _ _ _
  · unfold nsx22_get_analog_data
    rw [read_sample_loop_length_succ, hskip']
    have harith : 314 + C * 66 + (9 + 2 * C * s + 2 * c) + m * (2 * C) +
        2 = 314 + C * 66 + 9 + 2 * C * s + 2 * c +
          ((m + 1) - 1) * (2 * C) + 2 := by
      have hsm : (m + 1) - 1 = m := by omega
      rw [hsm]; ring
    rw [harith]

/-- Witness for C5 on a 44-byte two-channel v1 file (data region exactly
one 4-byte row). -/
theorem c5_analog_read_length_witness :
    (0 : Nat) < 2 ∧ (0 : Nat) < 1 ∧
    (nsx21_get_analog_data (List.replicate 44 0) 2 0 0 (some 1)).length
      = 1 := by
  have h := c5_analog_read_length (List.replicate 44 0) 2 0 0 1
    (by decide) (by decide) (by decide)
  exact ⟨by decide, by decide, h.2.1.mpr (by decide)⟩

/-- C6: the event-file bound checks are exactly as claimed — a packet
ordinal or extended-header index is accepted iff `0 ≤ i < count`, and an
accepted packet ordinal seeks to `bytes_headers + i * bytes_data_packet`
— but the continuous-v2 extended-header check uses `>` instead of `>=`,
so the out-of-range index `header_index = channel_count` is accepted
(e.g. index 4 with 4 channels) instead of failing with `BadIndex`. -/
theorem c6_bad_index_checks :
    (∀ n h b i : Int,
      nev_get_data_packet_seek n h b i = .ok (h + i * b) ↔
        0 ≤ i ∧ i < n) ∧
    (∀ n i : Int,
      nev_get_ext_header_seek n i = .error .nsBadIndex ↔
        ¬(0 ≤ i ∧ i < n)) ∧
    nsx22_get_ext_header_seek 4 4 = .ok (314 + 66 * 4) ∧
    (∀ cc i : Int,
      nsx22_get_ext_header_seek cc i = .error .nsBadIndex ↔
        ¬(0 ≤ i ∧ i ≤ cc)) := by
  refine ⟨?_, ?_, rfl, ?_⟩
  · intro n h b i
    unfold nev_get_data_packet_seek
    split_ifs with hcond
    · constructor
      · intro he; exact absurd he (by simp)
      · intro hr; exfalso; rcases hcond with hge | hneg <;> omega
    · push_neg at hcond
      constructor
      · intro _; exact ⟨hcond.2, hcond.1⟩
      · intro _; rfl
  · intro n i
    unfold nev_get_ext_header_seek
    split_ifs with hcond
    · constructor
      · intro _
        intro hr
        rcases hcond with hge | hneg <;> omega
      · intro _; rfl
    · push_neg at hcond
      constructor
      · intro he; exact absurd he (by simp)
      · intro hr; exact absurd ⟨hcond.2, hcond.1⟩ hr
  · intro cc i
    unfold nsx22_get_ext_header_seek
    split_ifs with hcond
    · constructor
      · intro _
        intro hr
        rcases hcond with hgt | hneg <;> omega
      · intro _; rfl
    · push_neg at hcond
      constructor
      · intro he; exact absurd he (by simp)
      · intro hr; exact absurd ⟨hcond.2, hcond.1⟩ hr

/-- C7 counterexample: for the one-event-file session, `get_file_info`
raises `AttributeError` instead of returning anything, and the value the
event-file branch would assign (line 381) is `1.0/sample_resolution`
(here `1/30000`), which equals neither the header's
`timestamp_resolution` reading (`1` in Ripple files) nor its
`sample_resolution` reading (`30000`). -/
theorem c7_timestamp_resolution_counterexample :
    get_file_info [FileTag.neuralev] = .error .attributeError ∧
    ts_resolution_assignment 30000 = 1 / 30000 ∧
    ts_resolution_assignment 30000 ≠ (30000 : ℚ) ∧
    ts_resolution_assignment 30000 ≠ (1 : ℚ) := by
  refine ⟨rfl, rfl, ?_, ?_⟩
  · unfold ts_resolution_assignment; norm_num
  · unfold ts_resolution_assignment; norm_num

/-- C7 amended: `get_file_info` never returns (the per-file loop raises
`AttributeError` reading the undeclared `header.file_type` attribute);
and the `timestamp_resolution` its event-file branch computes is the
reciprocal `1.0/sample_resolution` of the header's `sample_resolution`
field, which differs from any resolution value of at least 1 Hz carried
in the header whenever `sample_resolution ≥ 2`. -/
theorem c7_timestamp_resolution (files : List FileTag) (hne : files ≠ [])
    (t s : Nat) (ht : 1 ≤ t) (hs : 2 ≤ s) :
    get_file_info files = .error .attributeError ∧
    ts_resolution_assignment s = 1 / (s : ℚ) ∧
    ts_resolution_assignment s ≠ (t : ℚ) := by
  refine ⟨get_file_info_ne_nil files hne, rfl, ?_⟩
  intro heq
  have hs2 : (2 : ℚ) ≤ (s : ℚ) := by exact_mod_cast hs
  have ht1 : (1 : ℚ) ≤ (t : ℚ) := by exact_mod_cast ht
  have hpos : (0 : ℚ) < (s : ℚ) := by linarith
  have hle : ts_resolution_assignment s ≤ 1 / 2 := by
    unfold ts_resolution_assignment
    rw [div_le_div_iff₀ hpos (by norm_num)]
    linarith
  rw [heq] at hle
  linarith

/-- Witness for C7 at the one-event-file session with
`sample_resolution = 30000` and a claimed header value of 30000 Hz. -/
theorem c7_timestamp_resolution_witness :
    get_file_info [FileTag.neuralev] = .error .attributeError ∧
    ts_resolution_assignment 30000 ≠ (30000 : ℚ) := by
  have h := c7_timestamp_resolution [FileTag.neuralev] (by simp)
    30000 30000 (by decide) (by decide)
  exact ⟨h.1, h.2.2⟩

set_option maxRecDepth 8192 in
/-- C8: with `count = None` the v1 reader does return
`n_data_points - start_index` samples, but the v2 reader computes
`index_count = channel_count - start_index` (nsparser.py line 541): on a
466-byte two-channel v2 file with `bytes_headers = 446` (hence 5
per-channel data points) it returns 2 samples, not 5. -/
theorem c8_none_count_mismatch :
    (nsx22_get_analog_data (List.replicate 466 0) 2 0 0 none).length = 2 ∧
    nsx22_n_data_points 466 446 2 = 5 ∧
    (nsx22_get_analog_data (List.replicate 466 0) 2 0 0 none).length ≠
      nsx22_n_data_points 466 446 2 - 0 ∧
    (nsx21_get_analog_data (List.replicate 46 0) 2 0 0 none).length =
      nsx21_n_data_points 46 2 - 0 :=
  ⟨rfl, rfl, by decide, rfl⟩

/-- C9: the claim says `get_time` reconstructs the origin calendar time
field by field; the source builds
`datetime(year, month, day, hour, sec, hour, millisec)`, so the minute
receives the origin's second and the second receives the origin's hour.
Evaluated at origin 2012-04-23 09:34:56.789: minute is 56 (not 34) and
second is 9 (not 56).  (`get_time` furthermore calls `get_file_info`,
which raises `AttributeError` before any value is returned.) -/
theorem c9_get_time_field_scramble :
    get_time_from_info ⟨2012, 4, 23, 9, 34, 56, 789⟩ =
      ⟨2012, 4, 23, 9, 56, 9, 789⟩ ∧
    (get_time_from_info ⟨2012, 4, 23, 9, 34, 56, 789⟩).minute ≠ 34 ∧
    (get_time_from_info ⟨2012, 4, 23, 9, 34, 56, 789⟩).second ≠ 56 :=
  ⟨rfl, by decide, by decide⟩

/-- C10: when the computed packet count is zero
(`size - bytes_headers < bytes_data_packet`), the packet loop never
binds its loop variable and the time-span assignment after it raises
`NameError`, which is none of the four declared Neuroshare error
kinds. -/
theorem c10_zero_packets (size h b : Nat) (res : ℚ)
    (packets : List NevPacket) (_hh : h ≤ size) (hlt : size - h < b)
    (hlen : packets.length = nev_n_data_packets size h b) :
    load_neuralev_time_span packets res = .error .nameError ∧
    PyErr.nameError ∉ declared_error_kinds := by
  have hn : nev_n_data_packets size h b = 0 := Nat.div_eq_of_lt hlt
  have hnil : packets = [] := by
    rw [hn] at hlen
    exact List.eq_nil_of_length_eq_zero hlen
  subst hnil
  exact ⟨rfl, by decide⟩

/-- Witness for C10 on a file with a 50-byte header region and 50 bytes
of data, with 104-byte packets. -/
theorem c10_zero_packets_witness :
    (50 : Nat) ≤ 100 ∧ 100 - 50 < 104 ∧
    load_neuralev_time_span [] 1 = .error .nameError := by
  have h := c10_zero_packets 100 50 104 1 [] (by decide) (by decide)
    (by decide)
  exact ⟨by decide, by decide, h.1⟩
